import Mathlib

/-!
Shallow embedding of `ref_thread_local` (src/src/refmanager.rs, src/src/lib.rs).

One (cell, thread) pair is modelled by the contents of its
`RefManagerDataGuard<T>`: the `peek_data` pointers are null iff the guard is
uninitialized, and otherwise point into one heap-allocated
`RefManagerInnerData<T>` holding `borrow_count : Cell<isize>` and `value : T`.
We model that state as `Option (Int × T)` (`none` = null pointers,
`some (borrow_count, value)` = the live inner data).  Rust functions that can
panic are modelled with `PanicOr`; `Result<A, E>` becomes `Except E A`.
The initializer `fn() -> T` becomes `init_func : Unit → T`; each evaluation of
it corresponds to one call of the Rust initializer.
-/

namespace RefThreadLocal

/-- Model of `BorrowError` (a unit-payload error struct). -/
inductive BorrowError : Type where
  | mk : BorrowError
  deriving DecidableEq, Repr

/-- Model of `BorrowMutError` (a unit-payload error struct). -/
inductive BorrowMutError : Type where
  | mk : BorrowMutError
  deriving DecidableEq, Repr

/-- Outcome of a Rust computation that may panic with a message. -/
inductive PanicOr (α : Type) : Type where
  | ok : α → PanicOr α
  | panicked : String → PanicOr α
  deriving DecidableEq, Repr

/-- Model of `Result::expect(msg)`: the value on `Ok`, a panic with `msg` on `Err`. -/
def expectRes {ε α : Type} (r : Except ε α) (msg : String) : PanicOr α :=
  match r with
  | Except.ok a => PanicOr.ok a
  | Except.error _ => PanicOr.panicked msg

/-- Contents of one thread's `RefManagerDataGuard<T>`: `none` models null
`peek_data` pointers, `some (borrow_count, value)` models live
`RefManagerInnerData` reached through them. -/
abbrev DataGuard (T : Type) : Type := Option (Int × T)

/-- Model of `RefThreadLocal::initialize` (refmanager.rs lines 98-118): if the
guard's `ptr_inner_data` is null, run `init_func` once, install fresh inner data
with `borrow_count = 0`, and return `Ok(())`; otherwise return `Err(())` and
leave the guard untouched. -/
def initialize' {T : Type} (init_func : Unit → T) (g : DataGuard T) :
    Except Unit Unit × DataGuard T :=
  match g with
  | none => (Except.ok (), some (0, init_func ()))
  | some st => (Except.error (), some st)

/-- Model of `RefManager::get_initialized_peek` (refmanager.rs lines 87-94): if
the guard is null, call `initialize` and `expect "failed to initialize"`; then
return the guard's (possibly updated) peek data. -/
def get_initialized_peek {T : Type} (init_func : Unit → T) (g : DataGuard T) :
    PanicOr Unit × DataGuard T :=
  match g with
  | none =>
    let r := initialize' init_func none
    (expectRes r.1 "failed to initialize", r.2)
  | some st => (PanicOr.ok (), some st)

/-- Model of `RefThreadLocal::try_borrow` (refmanager.rs lines 137-151): get the
initialized peek data, unwrap the borrow-count pointer, and if the count is
negative return `BorrowError`, else increment the count and return a `Ref`
bound to that counter whose payload is the stored value. -/
def try_borrow {T : Type} (init_func : Unit → T) (g : DataGuard T) :
    PanicOr (Except BorrowError T) × DataGuard T :=
  match get_initialized_peek init_func g with
  | (PanicOr.panicked m, g1) => (PanicOr.panicked m, g1)
  | (PanicOr.ok _, g1) =>
    match g1 with
    | none => (PanicOr.panicked "called Option::unwrap on a None value", g1)
    | some (borrow_count, v) =>
      if borrow_count < 0 then
        (PanicOr.ok (Except.error BorrowError.mk), some (borrow_count, v))
      else
        (PanicOr.ok (Except.ok v), some (borrow_count + 1, v))

/-- Model of `RefThreadLocal::try_borrow_mut` (refmanager.rs lines 153-167): get
the initialized peek data, unwrap the borrow-count pointer, and if the count is
nonzero return `BorrowMutError`, else set the count to `-1` and return a
`RefMut` bound to that counter whose payload is the stored value. -/
def try_borrow_mut {T : Type} (init_func : Unit → T) (g : DataGuard T) :
    PanicOr (Except BorrowMutError T) × DataGuard T :=
  match get_initialized_peek init_func g with
  | (PanicOr.panicked m, g1) => (PanicOr.panicked m, g1)
  | (PanicOr.ok _, g1) =>
    match g1 with
    | none => (PanicOr.panicked "called Option::unwrap on a None value", g1)
    | some (borrow_count, v) =>
      if borrow_count ≠ 0 then
        (PanicOr.ok (Except.error BorrowMutError.mk), some (borrow_count, v))
      else
        (PanicOr.ok (Except.ok v), some (-1, v))

/-- Model of `RefThreadLocal::borrow` (refmanager.rs lines 129-131):
`self.try_borrow().expect("already mutably borrowed")`. -/
def borrow {T : Type} (init_func : Unit → T) (g : DataGuard T) :
    PanicOr T × DataGuard T :=
  match try_borrow init_func g with
  | (PanicOr.panicked m, g1) => (PanicOr.panicked m, g1)
  | (PanicOr.ok r, g1) => (expectRes r "already mutably borrowed", g1)

/-- Model of `RefThreadLocal::borrow_mut` (refmanager.rs lines 133-135):
`self.try_borrow_mut().expect("already borrowed")`. -/
def borrow_mut {T : Type} (init_func : Unit → T) (g : DataGuard T) :
    PanicOr T × DataGuard T :=
  match try_borrow_mut init_func g with
  | (PanicOr.panicked m, g1) => (PanicOr.panicked m, g1)
  | (PanicOr.ok r, g1) => (expectRes r "already borrowed", g1)

/-- Model of `RefManagerDataGuard::destroy` (refmanager.rs lines 226-241), to
which `RefManager::destroy` delegates (lines 120-122): `Err(())` when the inner
pointer is null; a panic when the borrow count is nonzero; otherwise free the
inner data, reset the peek data to the null triple, and return `Ok(())`. -/
def destroy {T : Type} (g : DataGuard T) :
    PanicOr (Except Unit Unit) × DataGuard T :=
  match g with
  | none => (PanicOr.ok (Except.error ()), none)
  | some (borrow_count, v) =>
    if borrow_count ≠ 0 then
      (PanicOr.panicked "cannot destroy before all references are dropped",
        some (borrow_count, v))
    else
      (PanicOr.ok (Except.ok ()), none)

/-- Model of `RefThreadLocal::is_initialized` (refmanager.rs lines 124-127):
whether `ptr_inner_data` is non-null. -/
def is_initialized {T : Type} (g : DataGuard T) : Bool :=
  match g with
  | none => false
  | some _ => true

/-- Model of `Drop for Ref` (refmanager.rs lines 170-174) acting on the bound
counter cell: `set(get() - 1)`. -/
def Ref.drop_count (borrow_count : Int) : Int := borrow_count - 1

/-- Model of `Drop for RefMut` (refmanager.rs lines 196-200) acting on the bound
counter cell: `set(0)`. -/
def RefMut.drop_count (_borrow_count : Int) : Int := 0

/-- Effect of dropping a `Ref` on the guard state whose counter cell it is bound
to (the cell lives inside the guard's inner data). -/
def drop_ref {T : Type} (g : DataGuard T) : DataGuard T :=
  match g with
  | none => none
  | some (borrow_count, v) => some (Ref.drop_count borrow_count, v)

/-- Effect of dropping a `RefMut` on the guard state whose counter cell it is
bound to. -/
def drop_ref_mut {T : Type} (g : DataGuard T) : DataGuard T :=
  match g with
  | none => none
  | some (borrow_count, v) => some (RefMut.drop_count borrow_count, v)

/-- One operation of the public surface on one (cell, thread) pair, including
the implicit drops of the guard objects a borrow returned. -/
inductive Op : Type where
  | opInitialize : Op
  | opDestroy : Op
  | opTryBorrow : Op
  | opTryBorrowMut : Op
  | opBorrow : Op
  | opBorrowMut : Op
  | opIsInitialized : Op
  | opDropRef : Op
  | opDropMut : Op
  deriving DecidableEq, Repr

/-- Execution state of one (cell, thread) pair: the guard contents, plus ghost
bookkeeping used only to state properties — the number of live `Ref` guards
(`nRef`), of live `RefMut` guards (`nMut`), and how many times the registered
initializer has been evaluated so far (`inits`). -/
structure MState (T : Type) where
  guard : DataGuard T
  nRef : Nat
  nMut : Nat
  inits : Nat
  deriving DecidableEq, Repr

/-- One step of the machine: run the modelled operation on the guard state and
account for the ghost fields.  `nRef`/`nMut` grow exactly when a borrow
succeeds and shrink on the matching drop; a drop with no live guard of that
kind is impossible in Rust and is a no-op here.  `inits` grows exactly when the
operation runs the initializer: on a successful explicit `initialize`, or on
the lazy-initialization path of the borrow family when the guard was null. -/
def step {T : Type} (init_func : Unit → T) (s : MState T) : Op → MState T
  | Op.opInitialize =>
    match initialize' init_func s.guard with
    | (Except.ok _, g1) => { s with guard := g1, inits := s.inits + 1 }
    | (Except.error _, g1) => { s with guard := g1 }
  | Op.opDestroy =>
    { s with guard := (destroy s.guard).2 }
  | Op.opTryBorrow =>
    let k := match s.guard with | none => s.inits + 1 | some _ => s.inits
    match try_borrow init_func s.guard with
    | (PanicOr.ok (Except.ok _), g1) =>
      { guard := g1, nRef := s.nRef + 1, nMut := s.nMut, inits := k }
    | (PanicOr.ok (Except.error _), g1) =>
      { guard := g1, nRef := s.nRef, nMut := s.nMut, inits := k }
    | (PanicOr.panicked _, g1) =>
      { guard := g1, nRef := s.nRef, nMut := s.nMut, inits := k }
  | Op.opTryBorrowMut =>
    let k := match s.guard with | none => s.inits + 1 | some _ => s.inits
    match try_borrow_mut init_func s.guard with
    | (PanicOr.ok (Except.ok _), g1) =>
      { guard := g1, nRef := s.nRef, nMut := s.nMut + 1, inits := k }
    | (PanicOr.ok (Except.error _), g1) =>
      { guard := g1, nRef := s.nRef, nMut := s.nMut, inits := k }
    | (PanicOr.panicked _, g1) =>
      { guard := g1, nRef := s.nRef, nMut := s.nMut, inits := k }
  | Op.opBorrow =>
    let k := match s.guard with | none => s.inits + 1 | some _ => s.inits
    match borrow init_func s.guard with
    | (PanicOr.ok _, g1) =>
      { guard := g1, nRef := s.nRef + 1, nMut := s.nMut, inits := k }
    | (PanicOr.panicked _, g1) =>
      { guard := g1, nRef := s.nRef, nMut := s.nMut, inits := k }
  | Op.opBorrowMut =>
    let k := match s.guard with | none => s.inits + 1 | some _ => s.inits
    match borrow_mut init_func s.guard with
    | (PanicOr.ok _, g1) =>
      { guard := g1, nRef := s.nRef, nMut := s.nMut + 1, inits := k }
    | (PanicOr.panicked _, g1) =>
      { guard := g1, nRef := s.nRef, nMut := s.nMut, inits := k }
  | Op.opIsInitialized => s
  | Op.opDropRef =>
    if s.nRef = 0 then s
    else { s with guard := drop_ref s.guard, nRef := s.nRef - 1 }
  | Op.opDropMut =>
    if s.nMut = 0 then s
    else { s with guard := drop_ref_mut s.guard, nMut := s.nMut - 1 }

/-- The state of a fresh thread: null peek data, no live guards, the
initializer never evaluated. -/
def initState (T : Type) : MState T :=
  { guard := none, nRef := 0, nMut := 0, inits := 0 }

/-- Run a sequence of operations from the fresh-thread state. -/
def run {T : Type} (init_func : Unit → T) (ops : List Op) : MState T :=
  ops.foldl (step init_func) (initState T)

/-- The borrow-state invariant: when the guard is live, either no `RefMut` is
live and the counter equals the number of live `Ref` guards, or exactly one
`RefMut` and no `Ref` is live and the counter is `-1`; when the guard is null,
no guard object is live at all. -/
def Inv {T : Type} (s : MState T) : Prop :=
  (s.guard = none → s.nRef = 0 ∧ s.nMut = 0) ∧
  (∀ (c : Int) (v : T), s.guard = some (c, v) →
    (s.nMut = 0 ∧ c = (s.nRef : Int)) ∨ (s.nMut = 1 ∧ s.nRef = 0 ∧ c = -1))

/-- The operations that access the cell's value and hence lazily construct it:
`initialize`, `borrow`, `borrow_mut`, `try_borrow`, `try_borrow_mut`. -/
def isAccess : Op → Bool
  | Op.opInitialize => true
  | Op.opTryBorrow => true
  | Op.opTryBorrowMut => true
  | Op.opBorrow => true
  | Op.opBorrowMut => true
  | _ => false

/-- Modelled from the spec: the crate's public guard type `Ref<T>` holds a
reference to the borrow counter it is bound to and a shared reference to the
payload (refmanager.rs lines 42-45); the counter reference is modelled as the
identity `borrow_count` of the bound counter cell. -/
structure RefG (T : Type) where
  borrow_count : Nat
  value : T
  deriving DecidableEq, Repr

/-- Modelled from the spec: the crate's public guard type `RefMut<T>` holds a
reference to the borrow counter it is bound to and an exclusive reference to
the payload (refmanager.rs lines 47-51). -/
structure RefMutG (T : Type) where
  borrow_count : Nat
  value : T
  deriving DecidableEq, Repr

/-- Modelled from the spec: `Ref::map` is part of the crate's public surface
(tests/test.rs calls `ref_thread_local::Ref::map`) but its defining code is not
under src.  Per the spec, it consumes a `Ref` and a read-only projection and
yields a `Ref` over the projected sub-value, preserving the original counter
binding and taking no new borrow. -/
def RefG.map {T U : Type} (r : RefG T) (f : T → U) : RefG U :=
  { borrow_count := r.borrow_count, value := f r.value }

/-- Modelled from the spec: `Ref::map_split` (called by tests/test.rs, defining
code not under src) consumes a `Ref` and a projection to a pair and yields two
`Ref`s over the components, both bound to the original counter. -/
def RefG.map_split {T U V : Type} (r : RefG T) (f : T → U × V) :
    RefG U × RefG V :=
  ({ borrow_count := r.borrow_count, value := (f r.value).1 },
   { borrow_count := r.borrow_count, value := (f r.value).2 })

/-- Modelled from the spec: `RefMut::map` (called by tests/test.rs, defining
code not under src) consumes a `RefMut` and a mutable projection and yields a
`RefMut` over the projected sub-value, preserving the counter binding. -/
def RefMutG.map {T U : Type} (r : RefMutG T) (f : T → U) : RefMutG U :=
  { borrow_count := r.borrow_count, value := f r.value }

/-- Modelled from the spec: `RefMut::map_split` (called by tests/test.rs,
defining code not under src) consumes a `RefMut` and a splitting projection and
yields two `RefMut`s over the disjoint components, both bound to the original
counter. -/
def RefMutG.map_split {T U V : Type} (r : RefMutG T) (f : T → U × V) :
    RefMutG U × RefMutG V :=
  ({ borrow_count := r.borrow_count, value := (f r.value).1 },
   { borrow_count := r.borrow_count, value := (f r.value).2 })

/-- Effect of dropping a `Ref` guard on a store of counter cells (indexed by
cell identity): the cell the guard is bound to is decremented, every other
cell is untouched. -/
def RefG.drop_on {T : Type} (r : RefG T) (cs : Nat → Int) : Nat → Int :=
  fun i => if i = r.borrow_count then Ref.drop_count (cs i) else cs i

/-- Effect of dropping a `RefMut` guard on a store of counter cells: the cell
the guard is bound to is reset to `0`, every other cell is untouched. -/
def RefMutG.drop_on {T : Type} (r : RefMutG T) (cs : Nat → Int) : Nat → Int :=
  fun i => if i = r.borrow_count then RefMut.drop_count (cs i) else cs i

theorem try_borrow_none_eq {T : Type} (f : Unit → T) :
    try_borrow f (none : DataGuard T) =
      (PanicOr.ok (Except.ok (f ())), some (1, f ())) := by
  simp [try_borrow, get_initialized_peek, initialize', expectRes]

theorem try_borrow_some_eq {T : Type} (f : Unit → T) (c : Int) (v : T) :
    try_borrow f (some (c, v)) =
      if c < 0 then (PanicOr.ok (Except.error BorrowError.mk), some (c, v))
      else (PanicOr.ok (Except.ok v), some (c + 1, v)) := rfl

theorem try_borrow_mut_none_eq {T : Type} (f : Unit → T) :
    try_borrow_mut f (none : DataGuard T) =
      (PanicOr.ok (Except.ok (f ())), some (-1, f ())) := by
  simp [try_borrow_mut, get_initialized_peek, initialize', expectRes]

theorem try_borrow_mut_some_eq {T : Type} (f : Unit → T) (c : Int) (v : T) :
    try_borrow_mut f (some (c, v)) =
      if c ≠ 0 then (PanicOr.ok (Except.error BorrowMutError.mk), some (c, v))
      else (PanicOr.ok (Except.ok v), some (-1, v)) := rfl

theorem destroy_some_eq {T : Type} (c : Int) (v : T) :
    destroy (some (c, v)) =
      if c ≠ 0 then
        (PanicOr.panicked "cannot destroy before all references are dropped",
          some (c, v))
      else (PanicOr.ok (Except.ok ()), none) := rfl

/-- C1: for every cell and thread, `try_borrow` first lazily initializes the
cell (running the registered initializer, so a null guard becomes a fresh
borrow state holding `init_func ()`); then, if the counter is negative it
returns `BorrowError` and changes nothing, and otherwise it increments the
counter by 1 and returns a `Ref` whose payload is the stored value, bound to
that counter. -/
theorem try_borrow_spec {T : Type} (f : Unit → T) :
    (try_borrow f (none : DataGuard T) =
      (PanicOr.ok (Except.ok (f ())), some (1, f ()))) ∧
    (∀ (c : Int) (v : T), c < 0 →
      try_borrow f (some (c, v)) =
        (PanicOr.ok (Except.error BorrowError.mk), some (c, v))) ∧
    (∀ (c : Int) (v : T), 0 ≤ c →
      try_borrow f (some (c, v)) =
        (PanicOr.ok (Except.ok v), some (c + 1, v))) := by
  refine ⟨try_borrow_none_eq f, ?_, ?_⟩
  · intro c v hc
    rw [try_borrow_some_eq, if_pos hc]
  · intro c v hc
    rw [try_borrow_some_eq, if_neg (not_lt.mpr hc)]

theorem try_borrow_spec_witness :
    ((-2 : Int) < 0 ∧
      try_borrow (fun _ => (7 : Nat)) (some (-2, 5)) =
        (PanicOr.ok (Except.error BorrowError.mk), some (-2, 5))) ∧
    ((0 : Int) ≤ 2 ∧
      try_borrow (fun _ => (7 : Nat)) (some (2, 5)) =
        (PanicOr.ok (Except.ok 5), some (3, 5))) :=
  ⟨⟨by decide, (try_borrow_spec (fun _ => (7 : Nat))).2.1 (-2) 5 (by decide)⟩,
   ⟨by decide, (try_borrow_spec (fun _ => (7 : Nat))).2.2 2 5 (by decide)⟩⟩

/-- C2: for every cell and thread, `try_borrow_mut` first lazily initializes
the cell (a null guard becomes a fresh borrow state holding `init_func ()`,
whose counter 0 is then set to `-1`); then, if the counter is not exactly 0 it
returns `BorrowMutError` and changes nothing, and otherwise it sets the counter
to `-1` and returns a `RefMut` whose payload is the stored value, bound to that
counter. -/
theorem try_borrow_mut_spec {T : Type} (f : Unit → T) :
    (try_borrow_mut f (none : DataGuard T) =
      (PanicOr.ok (Except.ok (f ())), some (-1, f ()))) ∧
    (∀ (c : Int) (v : T), c ≠ 0 →
      try_borrow_mut f (some (c, v)) =
        (PanicOr.ok (Except.error BorrowMutError.mk), some (c, v))) ∧
    (∀ v : T,
      try_borrow_mut f (some (0, v)) =
        (PanicOr.ok (Except.ok v), some (-1, v))) := by
  refine ⟨try_borrow_mut_none_eq f, ?_, ?_⟩
  · intro c v hc
    rw [try_borrow_mut_some_eq, if_pos hc]
  · intro v
    rw [try_borrow_mut_some_eq]
    simp

theorem try_borrow_mut_spec_witness :
    ((3 : Int) ≠ 0 ∧
      try_borrow_mut (fun _ => (7 : Nat)) (some (3, 5)) =
        (PanicOr.ok (Except.error BorrowMutError.mk), some (3, 5))) ∧
    try_borrow_mut (fun _ => (7 : Nat)) (some (0, 5)) =
      (PanicOr.ok (Except.ok 5), some (-1, 5)) :=
  ⟨⟨by decide, (try_borrow_mut_spec (fun _ => (7 : Nat))).2.1 3 5 (by decide)⟩,
   (try_borrow_mut_spec (fun _ => (7 : Nat))).2.2 5⟩

/-- C4: for every cell and thread, `destroy` returns failure when no borrow
state exists; panics (a fatal error, not a normal return) when one exists with
counter nonzero, leaving the state untouched; and otherwise releases the
borrow state, resets the guard to the absent state and returns success — after
which a subsequent `try_borrow` re-runs the initializer (its payload is a
fresh `init_func ()`). -/
theorem destroy_spec {T : Type} (f : Unit → T) :
    (destroy (none : DataGuard T) = (PanicOr.ok (Except.error ()), none)) ∧
    (∀ (c : Int) (v : T), c ≠ 0 →
      destroy (some (c, v)) =
        (PanicOr.panicked "cannot destroy before all references are dropped",
          some (c, v))) ∧
    (∀ v : T, destroy (some (0, v)) = (PanicOr.ok (Except.ok ()), none)) ∧
    (∀ v : T,
      try_borrow f (destroy (some (0, v))).2 =
        (PanicOr.ok (Except.ok (f ())), some (1, f ()))) := by
  refine ⟨rfl, ?_, ?_, ?_⟩
  · intro c v hc
    rw [destroy_some_eq, if_pos hc]
  · intro v
    rw [destroy_some_eq]
    simp
  · intro v
    rw [destroy_some_eq]
    simpa using try_borrow_none_eq f

theorem destroy_spec_witness :
    ((2 : Int) ≠ 0 ∧
      destroy (some (2, (5 : Nat))) =
        (PanicOr.panicked "cannot destroy before all references are dropped",
          some (2, 5))) ∧
    destroy (some (0, (5 : Nat))) = (PanicOr.ok (Except.ok ()), none) ∧
    try_borrow (fun _ => (7 : Nat)) (destroy (some (0, (5 : Nat)))).2 =
      (PanicOr.ok (Except.ok 7), some (1, 7)) :=
  ⟨⟨by decide, (destroy_spec (fun _ => (7 : Nat))).2.1 2 5 (by decide)⟩,
   (destroy_spec (fun _ => (7 : Nat))).2.2.1 5,
   (destroy_spec (fun _ => (7 : Nat))).2.2.2 5⟩

/-- C5: for every cell and thread, `initialize` installs a fresh borrow state
with counter 0 holding one evaluation of the initializer and returns success
when no borrow state exists (the ghost initializer count rises by exactly 1);
when one already exists it returns failure, does not run the initializer again
(the ghost count is unchanged) and leaves the existing counter and value
untouched. -/
theorem initialize_spec {T : Type} (f : Unit → T) :
    (initialize' f (none : DataGuard T) =
      (Except.ok (), some (0, f ()))) ∧
    (∀ (c : Int) (v : T),
      initialize' f (some (c, v)) = (Except.error (), some (c, v))) ∧
    (∀ s : MState T, s.guard = none →
      (step f s Op.opInitialize).inits = s.inits + 1 ∧
      (step f s Op.opInitialize).guard = some (0, f ())) ∧
    (∀ (s : MState T) (st : Int × T), s.guard = some st →
      (step f s Op.opInitialize).inits = s.inits ∧
      (step f s Op.opInitialize).guard = some st) := by
  refine ⟨rfl, fun c v => rfl, ?_, ?_⟩
  · intro s hs
    simp [step, hs, initialize']
  · intro s st hs
    simp [step, hs, initialize']

theorem initialize_spec_witness :
    initialize' (fun _ => (7 : Nat)) (some (2, 5)) =
      (Except.error (), some (2, 5)) ∧
    ((initState Nat).guard = none ∧
      (step (fun _ => (7 : Nat)) (initState Nat) Op.opInitialize).inits =
        (initState Nat).inits + 1) ∧
    ({ guard := some (2, 5), nRef := 2, nMut := 0, inits := 1 } :
        MState Nat).guard = some (2, 5) ∧
    (step (fun _ => (7 : Nat))
        ({ guard := some (2, 5), nRef := 2, nMut := 0, inits := 1 } :
          MState Nat) Op.opInitialize).inits = 1 :=
  ⟨(initialize_spec (fun _ => (7 : Nat))).2.1 2 5,
   ⟨rfl, ((initialize_spec (fun _ => (7 : Nat))).2.2.1 (initState Nat) rfl).1⟩,
   rfl,
   ((initialize_spec (fun _ => (7 : Nat))).2.2.2
      ({ guard := some (2, 5), nRef := 2, nMut := 0, inits := 1 })
      (2, 5) rfl).1⟩

/-- C6: destruction of a `Ref` decrements its bound counter by exactly 1, and
destruction of a `RefMut` sets its bound counter to 0 unconditionally; the
stored value (the only other state) is unchanged by either drop. -/
theorem guard_drop_spec {T : Type} :
    (∀ c : Int, Ref.drop_count c = c - 1) ∧
    (∀ c : Int, RefMut.drop_count c = 0) ∧
    (∀ (c : Int) (v : T), drop_ref (some (c, v)) = some (c - 1, v)) ∧
    (∀ (c : Int) (v : T), drop_ref_mut (some (c, v)) = some (0, v)) :=
  ⟨fun _ => rfl, fun _ => rfl, fun _ _ => rfl, fun _ _ => rfl⟩

/-- C7: the public guard types provide the projections `Ref::map`,
`Ref::map_split`, `RefMut::map` and `RefMut::map_split`; each consumes a guard
and a projection function and produces guards of the same kind over the
projected sub-value bound to the original counter cell: the projected guard's
payload is the projection of the original payload, its counter binding is the
original binding, and releasing it acts on any counter store exactly as
releasing the original guard would — no counter is incremented and no new
borrow is taken. -/
theorem map_preserves_binding {T U V : Type} (r : RefG T) (m : RefMutG T)
    (f : T → U) (p : T → U × V) :
    ((RefG.map r f).borrow_count = r.borrow_count ∧
      (RefG.map r f).value = f r.value ∧
      ∀ cs : Nat → Int, RefG.drop_on (RefG.map r f) cs = RefG.drop_on r cs) ∧
    ((RefG.map_split r p).1.borrow_count = r.borrow_count ∧
      (RefG.map_split r p).2.borrow_count = r.borrow_count ∧
      (RefG.map_split r p).1.value = (p r.value).1 ∧
      (RefG.map_split r p).2.value = (p r.value).2 ∧
      ∀ cs : Nat → Int,
        RefG.drop_on (RefG.map_split r p).1 cs = RefG.drop_on r cs ∧
        RefG.drop_on (RefG.map_split r p).2 cs = RefG.drop_on r cs) ∧
    ((RefMutG.map m f).borrow_count = m.borrow_count ∧
      (RefMutG.map m f).value = f m.value ∧
      ∀ cs : Nat → Int,
        RefMutG.drop_on (RefMutG.map m f) cs = RefMutG.drop_on m cs) ∧
    ((RefMutG.map_split m p).1.borrow_count = m.borrow_count ∧
      (RefMutG.map_split m p).2.borrow_count = m.borrow_count ∧
      (RefMutG.map_split m p).1.value = (p m.value).1 ∧
      (RefMutG.map_split m p).2.value = (p m.value).2 ∧
      ∀ cs : Nat → Int,
        RefMutG.drop_on (RefMutG.map_split m p).1 cs = RefMutG.drop_on m cs ∧
        RefMutG.drop_on (RefMutG.map_split m p).2 cs = RefMutG.drop_on m cs) :=
  ⟨⟨rfl, rfl, fun _ => rfl⟩,
   ⟨rfl, rfl, rfl, rfl, fun _ => ⟨rfl, rfl⟩⟩,
   ⟨rfl, rfl, fun _ => rfl⟩,
   ⟨rfl, rfl, rfl, rfl, fun _ => ⟨rfl, rfl⟩⟩⟩

/-- C10: the panic "failed to initialize" inside the lazy-borrow path is
unreachable: whenever `get_initialized_peek` runs (on a null or a live guard),
the embedded `initialize().expect("failed to initialize")` returns without
panicking and the resulting guard holds live (non-null) inner data, so the
subsequent pointer unwraps in `try_borrow`/`try_borrow_mut` succeed as well. -/
theorem lazy_init_never_fails {T : Type} (f : Unit → T) (g : DataGuard T) :
    ∃ st : Int × T,
      get_initialized_peek f g = (PanicOr.ok (), some st) := by
  match g with
  | none => exact ⟨(0, f ()), rfl⟩
  | some st => exact ⟨st, rfl⟩

/-- C8: for every cell and thread and every current guard state, `borrow`
behaves exactly like `try_borrow` followed by `unwrap`: it leaves the same
state behind, succeeds with exactly the `Ref` payload `try_borrow` returns,
and panics exactly when `try_borrow` returns `BorrowError`; `borrow_mut`
likewise behaves exactly like `try_borrow_mut` followed by `unwrap`. -/
theorem borrow_refines_try_borrow {T : Type} (f : Unit → T) (g : DataGuard T) :
    ((borrow f g).2 = (try_borrow f g).2 ∧
      ((∃ v : T, (try_borrow f g).1 = PanicOr.ok (Except.ok v) ∧
          (borrow f g).1 = PanicOr.ok v) ∨
        ((try_borrow f g).1 = PanicOr.ok (Except.error BorrowError.mk) ∧
          (borrow f g).1 = PanicOr.panicked "already mutably borrowed"))) ∧
    ((borrow_mut f g).2 = (try_borrow_mut f g).2 ∧
      ((∃ v : T, (try_borrow_mut f g).1 = PanicOr.ok (Except.ok v) ∧
          (borrow_mut f g).1 = PanicOr.ok v) ∨
        ((try_borrow_mut f g).1 = PanicOr.ok (Except.error BorrowMutError.mk) ∧
          (borrow_mut f g).1 = PanicOr.panicked "already borrowed"))) := by
  constructor
  · match g with
    | none =>
      rw [borrow, try_borrow_none_eq]
      exact ⟨rfl, Or.inl ⟨f (), rfl, rfl⟩⟩
    | some (c, v) =>
      rw [borrow, try_borrow_some_eq]
      by_cases hc : c < 0
      · rw [if_pos hc]
        exact ⟨rfl, Or.inr ⟨rfl, rfl⟩⟩
      · rw [if_neg hc]
        exact ⟨rfl, Or.inl ⟨v, rfl, rfl⟩⟩
  · match g with
    | none =>
      rw [borrow_mut, try_borrow_mut_none_eq]
      exact ⟨rfl, Or.inl ⟨f (), rfl, rfl⟩⟩
    | some (c, v) =>
      rw [borrow_mut, try_borrow_mut_some_eq]
      by_cases hc : c ≠ 0
      · rw [if_pos hc]
        exact ⟨rfl, Or.inr ⟨rfl, rfl⟩⟩
      · rw [if_neg hc]
        exact ⟨rfl, Or.inl ⟨v, rfl, rfl⟩⟩

theorem step_inv {T : Type} (f : Unit → T) (s : MState T) (o : Op)
    (h : Inv s) : Inv (step f s o) := by
  obtain ⟨g, nR, nM, k⟩ := s
  match g with
  | none =>
    obtain ⟨hR, hM⟩ := h.1 rfl
    subst hR hM
    cases o with
    | opInitialize =>
      simp [step, initialize', Inv]
    | opDestroy =>
      simp [step, destroy, Inv]
    | opTryBorrow =>
      simp [step, try_borrow_none_eq, Inv]
    | opTryBorrowMut =>
      simp [step, try_borrow_mut_none_eq, Inv]
    | opBorrow =>
      simp [step, borrow, try_borrow_none_eq, expectRes, Inv]
    | opBorrowMut =>
      simp [step, borrow_mut, try_borrow_mut_none_eq, expectRes, Inv]
    | opIsInitialized =>
      simpa [step] using h
    | opDropRef =>
      simpa [step] using h
    | opDropMut =>
      simpa [step] using h
  | some (c, v) =>
    have hd := h.2 c v rfl
    simp only [MState.nRef, MState.nMut] at hd
    cases o with
    | opInitialize =>
      simpa [step, initialize', Inv] using h
    | opDestroy =>
      by_cases hc : c = 0
      · subst hc
        simp only [step, destroy_some_eq]
        simp [Inv]
        omega
      · simpa [step, destroy_some_eq, hc, Inv] using h
    | opTryBorrow =>
      by_cases hc : c < 0
      · simpa [step, try_borrow_some_eq, hc, Inv] using h
      · simp only [step, try_borrow_some_eq, if_neg hc]
        simp [Inv]
        omega
    | opTryBorrowMut =>
      by_cases hc : c = 0
      · subst hc
        simp only [step, try_borrow_mut_some_eq]
        simp [Inv]
        omega
      · simpa [step, try_borrow_mut_some_eq, hc, Inv] using h
    | opBorrow =>
      by_cases hc : c < 0
      · simpa [step, borrow, try_borrow_some_eq, hc, expectRes, Inv] using h
      · simp only [step, borrow, try_borrow_some_eq, if_neg hc, expectRes]
        simp [Inv]
        omega
    | opBorrowMut =>
      by_cases hc : c = 0
      · subst hc
        simp only [step, borrow_mut, try_borrow_mut_some_eq]
        simp [step, expectRes, Inv]
        omega
      · simpa [step, borrow_mut, try_borrow_mut_some_eq, hc, expectRes, Inv]
          using h
    | opIsInitialized =>
      simpa [step] using h
    | opDropRef =>
      by_cases hR : nR = 0
      · simpa [step, hR] using h
      · simp only [step, if_neg hR]
        simp [drop_ref, Ref.drop_count, Inv]
        omega
    | opDropMut =>
      by_cases hM : nM = 0
      · simpa [step, hM] using h
      · simp only [step, if_neg hM]
        simp [drop_ref_mut, RefMut.drop_count, Inv]
        omega

theorem inv_foldl {T : Type} (f : Unit → T) (l : List Op) (s : MState T)
    (h : Inv s) : Inv (l.foldl (step f) s) := by
  induction l generalizing s with
  | nil => exact h
  | cons o l ih => exact ih (step f s o) (step_inv f s o h)

/-- C3: in every state reachable from the uninitialized state by any sequence
of the modelled operations on one (cell, thread) pair, a live counter is
either `-1` with exactly one live exclusive borrow and no shared one, `0` with
no live borrow at all, or `N > 0` with exactly `N` live shared borrows and no
exclusive one; no other negative value ever occurs. -/
theorem counter_invariant {T : Type} (f : Unit → T) (ops : List Op)
    (c : Int) (v : T) (h : (run f ops).guard = some (c, v)) :
    (c = -1 ∧ (run f ops).nMut = 1 ∧ (run f ops).nRef = 0) ∨
    (c = 0 ∧ (run f ops).nMut = 0 ∧ (run f ops).nRef = 0) ∨
    (0 < c ∧ (run f ops).nMut = 0 ∧ ((run f ops).nRef : Int) = c) := by
  have hi : Inv (run f ops) :=
    inv_foldl f ops (initState T) (by simp [Inv, initState])
  rcases hi.2 c v h with ⟨h1, h2⟩ | ⟨h1, h2, h3⟩
  · omega
  · omega

theorem counter_invariant_witness :
    (run (fun _ => (5 : Nat)) [Op.opTryBorrow]).guard = some (1, 5) ∧
    (((1 : Int) = -1 ∧ (run (fun _ => (5 : Nat)) [Op.opTryBorrow]).nMut = 1 ∧
        (run (fun _ => (5 : Nat)) [Op.opTryBorrow]).nRef = 0) ∨
      ((1 : Int) = 0 ∧ (run (fun _ => (5 : Nat)) [Op.opTryBorrow]).nMut = 0 ∧
        (run (fun _ => (5 : Nat)) [Op.opTryBorrow]).nRef = 0) ∨
      ((0 : Int) < 1 ∧ (run (fun _ => (5 : Nat)) [Op.opTryBorrow]).nMut = 0 ∧
        (((run (fun _ => (5 : Nat)) [Op.opTryBorrow]).nRef : Int) = 1))) :=
  ⟨by decide, counter_invariant (fun _ => (5 : Nat)) [Op.opTryBorrow] 1 5
    (by decide)⟩

theorem step_first_access {T : Type} (f : Unit → T) (a : Op)
    (ha : isAccess a = true) :
    (step f (initState T) a).inits = 1 ∧
    ∃ st : Int × T, (step f (initState T) a).guard = some st := by
  cases a with
  | opInitialize =>
    refine ⟨by simp [step, initState, initialize'], ⟨(0, f ()), ?_⟩⟩
    simp [step, initState, initialize']
  | opTryBorrow =>
    refine ⟨by simp [step, initState, try_borrow_none_eq], ⟨(1, f ()), ?_⟩⟩
    simp [step, initState, try_borrow_none_eq]
  | opTryBorrowMut =>
    refine ⟨by simp [step, initState, try_borrow_mut_none_eq],
      ⟨(-1, f ()), ?_⟩⟩
    simp [step, initState, try_borrow_mut_none_eq]
  | opBorrow =>
    refine ⟨by simp [step, initState, borrow, try_borrow_none_eq, expectRes],
      ⟨(1, f ()), ?_⟩⟩
    simp [step, initState, borrow, try_borrow_none_eq, expectRes]
  | opBorrowMut =>
    refine
      ⟨by simp [step, initState, borrow_mut, try_borrow_mut_none_eq, expectRes],
        ⟨(-1, f ()), ?_⟩⟩
    simp [step, initState, borrow_mut, try_borrow_mut_none_eq, expectRes]
  | opDestroy => simp [isAccess] at ha
  | opIsInitialized => simp [isAccess] at ha
  | opDropRef => simp [isAccess] at ha
  | opDropMut => simp [isAccess] at ha

theorem step_no_reinit {T : Type} (f : Unit → T) (s : MState T) (o : Op)
    (ho : o ≠ Op.opDestroy) (st : Int × T) (hs : s.guard = some st) :
    (step f s o).inits = s.inits ∧
    ∃ st' : Int × T, (step f s o).guard = some st' := by
  obtain ⟨g, nR, nM, k⟩ := s
  obtain ⟨c, v⟩ := st
  simp only [] at hs
  subst hs
  cases o with
  | opInitialize =>
    exact ⟨by simp [step, initialize'], ⟨(c, v), by simp [step, initialize']⟩⟩
  | opDestroy => exact absurd rfl ho
  | opTryBorrow =>
    by_cases hc : c < 0
    · exact ⟨by simp [step, try_borrow_some_eq, hc],
        ⟨(c, v), by simp [step, try_borrow_some_eq, hc]⟩⟩
    · exact ⟨by simp [step, try_borrow_some_eq, hc],
        ⟨(c + 1, v), by simp [step, try_borrow_some_eq, hc]⟩⟩
  | opTryBorrowMut =>
    by_cases hc : c = 0
    · subst hc
      exact ⟨by simp [step, try_borrow_mut_some_eq],
        ⟨(-1, v), by simp [step, try_borrow_mut_some_eq]⟩⟩
    · exact ⟨by simp [step, try_borrow_mut_some_eq, hc],
        ⟨(c, v), by simp [step, try_borrow_mut_some_eq, hc]⟩⟩
  | opBorrow =>
    by_cases hc : c < 0
    · exact ⟨by simp [step, borrow, try_borrow_some_eq, hc, expectRes],
        ⟨(c, v), by simp [step, borrow, try_borrow_some_eq, hc, expectRes]⟩⟩
    · exact ⟨by simp [step, borrow, try_borrow_some_eq, hc, expectRes],
        ⟨(c + 1, v),
          by simp [step, borrow, try_borrow_some_eq, hc, expectRes]⟩⟩
  | opBorrowMut =>
    by_cases hc : c = 0
    · subst hc
      exact ⟨by simp [step, borrow_mut, try_borrow_mut_some_eq, expectRes],
        ⟨(-1, v),
          by simp [step, borrow_mut, try_borrow_mut_some_eq, expectRes]⟩⟩
    · exact ⟨by simp [step, borrow_mut, try_borrow_mut_some_eq, hc, expectRes],
        ⟨(c, v),
          by simp [step, borrow_mut, try_borrow_mut_some_eq, hc, expectRes]⟩⟩
  | opIsInitialized => exact ⟨rfl, ⟨(c, v), rfl⟩⟩
  | opDropRef =>
    by_cases hR : nR = 0
    · exact ⟨by simp [step, hR], ⟨(c, v), by simp [step, hR]⟩⟩
    · exact ⟨by simp [step, hR], ⟨(c - 1, v),
        by simp [step, hR, drop_ref, Ref.drop_count]⟩⟩
  | opDropMut =>
    by_cases hM : nM = 0
    · exact ⟨by simp [step, hM], ⟨(c, v), by simp [step, hM]⟩⟩
    · exact ⟨by simp [step, hM], ⟨(0, v),
        by simp [step, hM, drop_ref_mut, RefMut.drop_count]⟩⟩

theorem foldl_no_reinit {T : Type} (f : Unit → T) (l : List Op)
    (hl : ∀ o ∈ l, o ≠ Op.opDestroy) (s : MState T) (st : Int × T)
    (hs : s.guard = some st) : (l.foldl (step f) s).inits = s.inits := by
  induction l generalizing s st with
  | nil => rfl
  | cons o l ih =>
    obtain ⟨h1, st', h2⟩ := step_no_reinit f s o (hl o (by simp)) st hs
    calc (l.foldl (step f) (step f s o)).inits
        = (step f s o).inits :=
          ih (fun o' ho' => hl o' (List.mem_cons_of_mem _ ho')) _ st' h2
      _ = s.inits := h1

/-- C9: for every cell and thread, the first access — any of the operations
`initialize`, `borrow`, `borrow_mut`, `try_borrow`, `try_borrow_mut` —
performed on the fresh (uninitialized) state triggers exactly one evaluation
of the registered initializer, and any sequence of later operations containing
no `destroy` never evaluates the initializer again: the evaluation count is
still exactly 1. -/
theorem initializer_runs_once {T : Type} (f : Unit → T) (a : Op)
    (ha : isAccess a = true) (l : List Op)
    (hl : ∀ o ∈ l, o ≠ Op.opDestroy) : (run f (a :: l)).inits = 1 := by
  obtain ⟨h1, st, h2⟩ := step_first_access f a ha
  have hrun : run f (a :: l) = l.foldl (step f) (step f (initState T) a) := rfl
  rw [hrun, foldl_no_reinit f l hl _ st h2, h1]

theorem initializer_runs_once_witness :
    isAccess Op.opTryBorrow = true ∧
    (run (fun _ => (5 : Nat))
        (Op.opTryBorrow ::
          [Op.opTryBorrow, Op.opDropRef, Op.opIsInitialized,
            Op.opTryBorrowMut])).inits = 1 :=
  ⟨by decide,
    initializer_runs_once (fun _ => (5 : Nat)) Op.opTryBorrow (by decide)
      [Op.opTryBorrow, Op.opDropRef, Op.opIsInitialized, Op.opTryBorrowMut]
      (by decide)⟩

end RefThreadLocal
